import Mathlib

/-!
Shallow embedding of the spam-classifier HTTP proxy (Flask app `app.py`,
with the near-duplicate variant `testing_api.py`).

The embedding models:
* Python JSON-ish values (`PyVal`) and the reply normalizer of `classify`
  (`parseResult`), translated from `app.py` lines 142-172;
* the connection cache and Connect-and-Verify retry loop (`get_client`,
  `app.py` lines 31-81), as an explicit state machine over `CState` with an
  oracle describing the outcome of each connect/probe attempt;
* the per-call predict retry loops of `classify` (`app.py` lines 126-140 and
  `testing_api.py` lines 96-109);
* the `/classify` and `/classify/batch` handlers (`app.py` lines 84-263) and
  the `/warmup` forced refresh (`app.py` lines 266-294).

Modelling conventions:
* wall-clock time is a natural number of seconds; sleeps advance it, the
  durations of the network calls themselves are abstracted to zero;
* Python floats are modelled as rationals, and `round(x, 4)` as exact
  rational rounding to the nearest multiple of 1/10000;
* a network interaction (opening a client, the probe prediction, a predict
  call) is driven by an oracle giving each attempt's outcome;
* Python exceptions are modelled by explicit error values; the exception
  text of low-level type errors is abstracted to a fixed string where the
  code only passes it through.
-/

/-- Python's `str.strip()` on both ends, over the character data. -/
def pyStrip (s : String) : String :=
  ⟨List.reverse (List.dropWhile Char.isWhitespace
    (List.reverse (List.dropWhile Char.isWhitespace s.data)))⟩

/-- `round(x, 4)`: rounding to four decimal digits, modelled exactly on ℚ. -/
def round4 (q : ℚ) : ℚ :=
  ((round (q * 10000) : ℤ) : ℚ) / 10000

/-- Is `pat` a prefix of `s` (on character lists)? -/
def listPrefixOf : List Char → List Char → Bool
  | [], _ => true
  | _ :: _, [] => false
  | a :: as, b :: bs => a = b && listPrefixOf as bs

/-- Python's substring test `pat in s`, on character lists. -/
def listContains (pat : List Char) : List Char → Bool
  | [] => listPrefixOf pat []
  | s@(_ :: rest) => listPrefixOf pat s || listContains pat rest

/-- Python's `pat in s` on strings. -/
def strIn (pat s : String) : Bool := listContains pat.data s.data

/-- A JSON-ish Python value, as produced by the upstream predict call. -/
inductive PyVal where
  | str (s : String)
  | num (q : ℚ)
  | noneV
  | dict (entries : List (String × PyVal))
  | arr (elems : List PyVal)

/-- Python dict lookup `d[k]` / `d.get(k)` as an `Option`. -/
def pyGet (es : List (String × PyVal)) (key : String) : Option PyVal :=
  match es with
  | [] => none
  | (k, v) :: rest => if k = key then some v else pyGet rest key

mutual
/-- Python's `str(value)` rendering, used for the `raw_result` diagnostic
echo.  Numeric rendering is abstracted to `num/den`. -/
def pyStr : PyVal → String
  | PyVal.str s => "'" ++ s ++ "'"
  | PyVal.num q => toString q.num ++ "/" ++ toString q.den
  | PyVal.noneV => "None"
  | PyVal.dict es => "\x7b" ++ pyStrEntries es ++ "\x7d"
  | PyVal.arr es => "[" ++ pyStrElems es ++ "]"

def pyStrEntries : List (String × PyVal) → String
  | [] => ""
  | [(k, v)] => "'" ++ k ++ "': " ++ pyStr v
  | (k, v) :: e :: rest => "'" ++ k ++ "': " ++ pyStr v ++ ", " ++ pyStrEntries (e :: rest)

def pyStrElems : List PyVal → String
  | [] => ""
  | [v] => pyStr v
  | v :: e :: rest => pyStr v ++ ", " ++ pyStrElems (e :: rest)
end

/-- Outcome of the normalizer stage of `classify` (`app.py` 142-197):
either a spam/ham score pair, the explicit unrecognized-shape branch
(`app.py` 167-172, echoing `str(result)`), or an exception raised while
parsing, caught at `app.py` 191-197. -/
inductive ParseOutcome where
  | ok (spam ham : ℚ)
  | unrecognized (raw : String)
  | parseError
  deriving DecidableEq

/-- `next((item['confidence'] for item in items if cls in item['label']), 0)`
(`app.py` 146-153): first confidence whose label has `cls` as a substring,
defaulting to `0`; `Except.error` models an exception raised while iterating
(missing key, non-dict item, non-string label). -/
def findConf (cls : String) : List PyVal → Except Unit PyVal
  | [] => Except.ok (PyVal.num 0)
  | item :: rest =>
    match item with
    | PyVal.dict d =>
      match pyGet d "label" with
      | some (PyVal.str lbl) =>
        if strIn cls lbl then
          match pyGet d "confidence" with
          | some v => Except.ok v
          | none => Except.error ()
        else findConf cls rest
      | _ => Except.error ()
    | _ => Except.error ()

/-- The reply normalizer of `classify` (`app.py` 142-172).

Format 1: dict with a `confidences` list of `{label, confidence}` entries,
matched by substring against `Spam` / `Ham`.  Format 2: dict with a `label`
(compared for equality with `Spam`) and an optional `confidence` defaulting
to `0.5`; the losing class gets `1 - c`.  Format 3: tuple/list whose second
element maps class names to scores, both defaulting to `0`, and both scores
defaulting to `0` outright when the sequence has fewer than two elements.
Anything else falls into the explicit unrecognized branch.  Non-numeric
scores make the later comparison/rounding raise, which the code reports as
a parse failure; Python iteration over non-list iterables is likewise
subsumed into `parseError`. -/
def parseResult (result : PyVal) : ParseOutcome :=
  match result with
  | PyVal.dict entries =>
    match pyGet entries "confidences" with
    | some (PyVal.arr items) =>
      match findConf "Spam" items, findConf "Ham" items with
      | Except.ok (PyVal.num s), Except.ok (PyVal.num h) => ParseOutcome.ok s h
      | _, _ => ParseOutcome.parseError
    | some _ => ParseOutcome.parseError
    | none =>
      match pyGet entries "label" with
      | some lblVal =>
        (match (pyGet entries "confidence").getD (PyVal.num (1/2)) with
         | PyVal.num c =>
             (match lblVal with
              | PyVal.str s =>
                if s = "Spam" then ParseOutcome.ok c (1 - c)
                else ParseOutcome.ok (1 - c) c
              | _ => ParseOutcome.ok (1 - c) c)
         | _ => ParseOutcome.parseError)
      | none => ParseOutcome.unrecognized (pyStr result)
  | PyVal.arr elems =>
    if 1 < elems.length then
      match elems.get? 1 with
      | some (PyVal.dict d) =>
        match (pyGet d "Spam").getD (PyVal.num 0), (pyGet d "Ham").getD (PyVal.num 0) with
        | PyVal.num s, PyVal.num h => ParseOutcome.ok s h
        | _, _ => ParseOutcome.parseError
      | _ => ParseOutcome.parseError
    else ParseOutcome.ok 0 0
  | _ => ParseOutcome.unrecognized (pyStr result)

/-- A gradio client handle.  `hid` identifies the `Client(...)` object (the
attempt index that created it); `verified` records whether its probe
prediction has succeeded (the spec's `Verified` flag). -/
structure Handle where
  hid : ℕ
  verified : Bool
  deriving DecidableEq

/-- The process-global connection cache: the module globals `_client` and
`_client_init_time` of `app.py` lines 27-28. -/
structure CState where
  client : Option Handle
  initTime : Option ℕ
  deriving DecidableEq

/-- Oracle answer for one iteration of the Connect-and-Verify loop: the
`Client(...)` construction raises, the probe `predict` raises, or both
succeed.  `isJson` tells whether the raised exception is a
`json.JSONDecodeError` (`app.py` line 58) rather than a generic one. -/
inductive AttemptOutcome where
  | connectErr (isJson : Bool)
  | probeErr (isJson : Bool)
  | ok
  deriving DecidableEq

/-- The exception raised when the Connect-and-Verify loop exhausts its
attempts: either the JSON-decode branch (`app.py` 64-68) or the generic
branch (`app.py` 75-79). -/
inductive ConnError where
  | invalidResponse (msg : String)
  | unavailable (msg : String)
  deriving DecidableEq

/-- Message text of a `ConnError`. -/
def connErrMsgOf : ConnError → String
  | ConnError.invalidResponse m => m
  | ConnError.unavailable m => m

/-- `app.py` lines 65-68. -/
def jsonFailMsg : String :=
  "Space returned invalid response. It might still be starting up. Please wait 30-60 seconds and try again."

/-- `app.py` lines 76-79 (`n` is the `max_retries` parameter). -/
def connFailMsg (n : ℕ) : String :=
  "Could not connect to Space after " ++ toString n ++
    " attempts. The Space might be sleeping or unavailable. Please try /warmup first."

/-- Does a message suggest the warm-up path? -/
def mentionsWarmup (s : String) : Bool := strIn "/warmup" s

/-- Whether an attempt's failure is the JSON-decode kind. -/
def outcomeIsJson : AttemptOutcome → Bool
  | AttemptOutcome.connectErr j => j
  | AttemptOutcome.probeErr j => j
  | AttemptOutcome.ok => false

/-- The exception raised by the final failed attempt of a run with
`max_retries = n`. -/
def lastAttemptErr (o : AttemptOutcome) (n : ℕ) : ConnError :=
  if outcomeIsJson o then ConnError.invalidResponse jsonFailMsg
  else ConnError.unavailable (connFailMsg n)

/-- An observable network/timing event of a Connect-and-Verify run. -/
inductive Event where
  | connectCall
  | probeCall
  | sleep (seconds : ℕ)
  deriving DecidableEq

/-- The sleep durations occurring in an event list, in order. -/
def sleepsOf (es : List Event) : List ℕ :=
  es.filterMap (fun e => match e with | Event.sleep s => some s | _ => none)

/-- Result of a `get_client` call: the returned value or raised exception,
the final cache state, the wall clock after the call, how many times the
Connect-and-Verify retry loop was entered, the network/sleep events, and
the intermediate cache states after each mutation of the globals (for
stating cache-slot invariants). -/
structure RunOut where
  result : Except ConnError (Option Handle)
  state : CState
  now : ℕ
  seqs : ℕ
  events : List Event
  states : List CState

/-- The `for attempt in range(max_retries)` loop of `get_client`
(`app.py` lines 43-79), for `fuel` remaining iterations starting at index
`attempt`.  `mr` is the `max_retries` argument (used in the final error
message), `rd` the `retry_delay`.

Faithful ordering of the source: `_client = Client(...)` stores the (not
yet verified) handle into the global slot *before* the probe; the probe
success then sets `_client_init_time` (modelled together with marking the
handle verified); an exception skips to the handler, which sleeps and
retries, or raises after the last attempt — without resetting `_client`.
Falling out of the loop (only possible when called with no iterations)
returns the current `_client` (`app.py` line 81). -/
def connectLoop (mr rd : ℕ) (oracle : ℕ → AttemptOutcome) :
    (fuel attempt now : ℕ) → CState → RunOut
  | 0, _, now, st => ⟨Except.ok st.client, st, now, 1, [], []⟩
  | fuel + 1, attempt, now, st =>
    match oracle attempt with
    | AttemptOutcome.ok =>
      let stMid : CState := ⟨some ⟨attempt, false⟩, st.initTime⟩
      let stFin : CState := ⟨some ⟨attempt, true⟩, some now⟩
      ⟨Except.ok (some ⟨attempt, true⟩), stFin, now, 1,
        [Event.connectCall, Event.probeCall], [stMid, stFin]⟩
    | AttemptOutcome.connectErr j =>
      if fuel = 0 then
        ⟨Except.error (lastAttemptErr (AttemptOutcome.connectErr j) mr), st, now, 1,
          [Event.connectCall], []⟩
      else
        let w := rd * (attempt + 1)
        let rest := connectLoop mr rd oracle fuel (attempt + 1) (now + w) st
        ⟨rest.result, rest.state, rest.now, 1,
          Event.connectCall :: Event.sleep w :: rest.events, rest.states⟩
    | AttemptOutcome.probeErr j =>
      let stMid : CState := ⟨some ⟨attempt, false⟩, st.initTime⟩
      if fuel = 0 then
        ⟨Except.error (lastAttemptErr (AttemptOutcome.probeErr j) mr), stMid, now, 1,
          [Event.connectCall, Event.probeCall], [stMid]⟩
      else
        let w := rd * (attempt + 1)
        let rest := connectLoop mr rd oracle fuel (attempt + 1) (now + w) stMid
        ⟨rest.result, rest.state, rest.now, 1,
          Event.connectCall :: Event.probeCall :: Event.sleep w :: rest.events,
          stMid :: rest.states⟩

/-- `get_client` (`app.py` lines 31-81), with the freshness `window` as a
parameter (300 s in `app.py`, 600 s in `testing_api.py`).  A cached client
is returned as-is whenever `_client_init_time` is truthy and younger than
the window; otherwise the slot is cleared (keeping the old timestamp!) and
the Connect-and-Verify loop runs. -/
def getClientW (window mr rd : ℕ) (oracle : ℕ → AttemptOutcome)
    (now : ℕ) (st : CState) : RunOut :=
  match st.client with
  | some c =>
    match st.initTime with
    | some t =>
      if t ≠ 0 ∧ now - t < window then ⟨Except.ok (some c), st, now, 0, [], []⟩
      else
        let st1 : CState := ⟨none, st.initTime⟩
        let out := connectLoop mr rd oracle mr 0 now st1
        ⟨out.result, out.state, out.now, 1, out.events, st1 :: out.states⟩
    | none =>
      let st1 : CState := ⟨none, none⟩
      let out := connectLoop mr rd oracle mr 0 now st1
      ⟨out.result, out.state, out.now, 1, out.events, st1 :: out.states⟩
  | none => connectLoop mr rd oracle mr 0 now st

/-- `get_client(max_retries, retry_delay)` of `app.py` (300 s window). -/
def get_client (mr rd : ℕ) (oracle : ℕ → AttemptOutcome) (now : ℕ) (st : CState) : RunOut :=
  getClientW 300 mr rd oracle now st

/-- The `/warmup` handler's connection part (`app.py` lines 273-277): it
resets `_client` to `None` — but not `_client_init_time` — and re-runs
`get_client` with the larger budget `max_retries=5, retry_delay=15`. -/
def warmupRun (oracle : ℕ → AttemptOutcome) (now : ℕ) (st : CState) : RunOut :=
  get_client 5 15 oracle now ⟨none, st.initTime⟩

/-- Result of a per-call predict retry loop: the obtained reply or the
raised exception, the number of `client.predict` calls made, and the
sleeps between attempts. -/
structure PredOut where
  result : Except String PyVal
  calls : ℕ
  sleeps : List ℕ

/-- The predict retry loop of `classify` in `app.py` (lines 126-140):
up to three attempts, sleeping `5 * (attempt + 1)` seconds between
consecutive attempts, finally raising
`Prediction failed after 3 attempts: ...`.  The oracle gives each
attempt's reply or exception detail. -/
def predictLoop (po : ℕ → Except String PyVal) : (fuel attempt : ℕ) → PredOut
  | 0, _ => ⟨Except.error "", 0, []⟩
  | fuel + 1, attempt =>
    match po attempt with
    | Except.ok r => ⟨Except.ok r, 1, []⟩
    | Except.error d =>
      if fuel = 0 then ⟨Except.error ("Prediction failed after 3 attempts: " ++ d), 1, []⟩
      else
        let rest := predictLoop po fuel (attempt + 1)
        ⟨rest.result, rest.calls + 1, 5 * (attempt + 1) :: rest.sleeps⟩

/-- `classify`'s predict loop with `max_predict_retries = 3` (`app.py`). -/
def predictWithRetry (po : ℕ → Except String PyVal) : PredOut :=
  predictLoop po 3 0

/-- The predict retry loop of `classify` in `testing_api.py`
(lines 96-109): up to three attempts, but a constant `time.sleep(5)`
between attempts, finally raising `Prediction failed: ...` (no attempt
count in the message). -/
def predictLoopT (po : ℕ → Except String PyVal) : (fuel attempt : ℕ) → PredOut
  | 0, _ => ⟨Except.error "", 0, []⟩
  | fuel + 1, attempt =>
    match po attempt with
    | Except.ok r => ⟨Except.ok r, 1, []⟩
    | Except.error d =>
      if fuel = 0 then ⟨Except.error ("Prediction failed: " ++ d), 1, []⟩
      else
        let rest := predictLoopT po fuel (attempt + 1)
        ⟨rest.result, rest.calls + 1, 5 :: rest.sleeps⟩

/-- `testing_api.py`'s predict loop with `max_retries = 3`. -/
def predictWithRetryT (po : ℕ → Except String PyVal) : PredOut :=
  predictLoopT po 3 0

/-- A JSON response body of the `/classify` handler: either the
classification result (`app.py` 178-186) or one of the structured error
bodies, with the optional fields the various handlers attach. -/
inductive RespBody where
  | result (text label : String) (confidence spam ham : ℚ)
  | err (error : String) (message suggestion statusTag details rawResult : Option String)
  deriving DecidableEq

/-- An HTTP response: status code plus JSON body. -/
structure Response where
  status : ℕ
  body : RespBody
  deriving DecidableEq

/-- `str(AttributeError)` when `request.get_json()` yielded `None` and the
handler runs `data.get(...)` (missing/invalid JSON body). -/
def noneGetMsg : String := "'NoneType' object has no attribute 'get'"

/-- The catch-all message of `classify` (`app.py` line 203). -/
def classifyFailMsg : String :=
  "Classification failed. The Space might be sleeping. Please try /warmup first."

/-- The suggestion attached to the 503 body (`app.py` line 121). -/
def warmupSuggestMsg : String :=
  "Try hitting the /warmup endpoint first to wake up the Space"

/-- Exception detail when `client` is `None` and `client.predict` is
called (only reachable with a zero retry budget; abstracted text). -/
def nonePredictMsg : String := "'NoneType' object has no attribute 'predict'"

/-- Abstracted `str(e)` of the exception caught while parsing the model
output (`app.py` line 195). -/
def parseErrDetail : String := "type error while parsing model output"

/-- The response of `classify` after input validation: branches on the
`get_client` outcome (503 body, `app.py` 118-123), then on the predict
retry outcome (500 via the catch-all handler, `app.py` 199-204), then on
the normalizer (`app.py` 142-197). -/
def classifyResponse (text : String) (conn : Except ConnError (Option Handle))
    (p : PredOut) : Response :=
  match conn with
  | Except.error e =>
    ⟨503, RespBody.err (connErrMsgOf e) none (some warmupSuggestMsg)
      (some "space_unavailable") none none⟩
  | Except.ok _ =>
    match p.result with
    | Except.error m => ⟨500, RespBody.err m (some classifyFailMsg) none none none none⟩
    | Except.ok r =>
      match parseResult r with
      | ParseOutcome.ok sc hc =>
        ⟨200, RespBody.result text (if hc < sc then "spam" else "ham")
          (round4 (max sc hc)) (round4 sc) (round4 hc)⟩
      | ParseOutcome.unrecognized raw =>
        ⟨500, RespBody.err "Unexpected response format from model" none none none none
          (some raw)⟩
      | ParseOutcome.parseError =>
        ⟨500, RespBody.err "Failed to parse model output" none none none
          (some parseErrDetail) (some (pyStr r))⟩

/-- Aggregate outcome of a `/classify` request: response, final cache
state, number of Connect-and-Verify loop entries, connection events,
number of `client.predict` calls and the predict-loop sleeps. -/
structure ClassifyOut where
  resp : Response
  state : CState
  connSeqs : ℕ
  connEvents : List Event
  predictCalls : ℕ
  predictSleeps : List ℕ
  deriving DecidableEq

/-- The `/classify` handler of `app.py` (lines 84-204).

`body` models `request.get_json()`: `none` when there is no parseable
JSON body (then `data.get` raises and the catch-all handler answers 500),
`some none` for a JSON object without a `text` field (defaulted to `""`),
`some (some t)` for text `t`.  The text is stripped; a falsy result gives
the 400 `No text provided` answer without touching the network.  Then
`get_client()` (with its defaults `max_retries=3, retry_delay=10`) runs;
on failure the 503 body carries the exception text and the warm-up
suggestion.  With a client, the predict retry loop and the normalizer
produce the response.  A `None` client (possible only with an empty retry
budget) makes every predict attempt raise. -/
def classify (body : Option (Option String)) (co : ℕ → AttemptOutcome)
    (po : ℕ → Except String PyVal) (now : ℕ) (st : CState) : ClassifyOut :=
  match body with
  | Option.none =>
    ⟨⟨500, RespBody.err noneGetMsg (some classifyFailMsg) none none none none⟩,
      st, 0, [], 0, []⟩
  | some b =>
    let text := pyStrip (b.getD "")
    if text = "" then
      ⟨⟨400, RespBody.err "No text provided" none none none none none⟩, st, 0, [], 0, []⟩
    else
      let run := get_client 3 10 co now st
      let p : PredOut :=
        match run.result with
        | Except.ok (some _) => predictWithRetry po
        | Except.ok Option.none => predictWithRetry (fun _ => Except.error nonePredictMsg)
        | Except.error _ => ⟨Except.error "", 0, []⟩
      ⟨classifyResponse text run.result p, run.state, run.seqs, run.events,
        (match run.result with | Except.error _ => 0 | Except.ok _ => p.calls),
        (match run.result with | Except.error _ => [] | Except.ok _ => p.sleeps)⟩

/-- Scores extracted from one batch item's reply (`app.py` 239-242):
`result['confidences']` is indexed directly, so anything that is not a
dict with a well-formed `confidences` list raises, which the per-item
handler turns into a failure entry (`none` here). -/
def batchScores (r : PyVal) : Option (ℚ × ℚ) :=
  match r with
  | PyVal.dict es =>
    match pyGet es "confidences" with
    | some (PyVal.arr items) =>
      match findConf "Spam" items, findConf "Ham" items with
      | Except.ok (PyVal.num s), Except.ok (PyVal.num h) => some (s, h)
      | _, _ => none
    | _ => none
  | _ => none

/-- The entry appended for one non-blank batch item (`app.py` 236-254):
a `{text, label, confidence}` dict on success — note: no `probabilities`
field, and the echoed text is not stripped — or a
`{text, error: Classification failed}` dict when the predict call or the
parsing raised. -/
def batchEntry (text : String) (pr : Except String PyVal) : PyVal :=
  match pr with
  | Except.error _ =>
    PyVal.dict [("text", PyVal.str text), ("error", PyVal.str "Classification failed")]
  | Except.ok r =>
    match batchScores r with
    | some (s, h) =>
      PyVal.dict [("text", PyVal.str text),
        ("label", PyVal.str (if h < s then "spam" else "ham")),
        ("confidence", PyVal.num (round4 (max s h)))]
    | none =>
      PyVal.dict [("text", PyVal.str text), ("error", PyVal.str "Classification failed")]

/-- The item loop of `classify_batch` (`app.py` 233-254): texts blank
after stripping are skipped outright; every other text gets exactly one
entry, computed independently from the item's own predict outcome
(`po i` for the item at position `i` of the input list). -/
def batchProcess (po : ℕ → Except String PyVal) : List String → ℕ → List PyVal
  | [], _ => []
  | t :: rest, i =>
    if pyStrip t = "" then batchProcess po rest (i + 1)
    else batchEntry t (po i) :: batchProcess po rest (i + 1)

/-- Aggregate outcome of a `/classify/batch` request. -/
structure BatchOut where
  status : ℕ
  entries : List PyVal
  errorMsg : Option String
  state : CState
  connSeqs : ℕ
  connEvents : List Event

/-- The `/classify/batch` handler of `app.py` (lines 207-263).

`body` models `request.get_json()` as in `classify`; the `texts` field is
defaulted to `[]` and a falsy (empty) list is rejected with 400.  A
`get_client()` failure yields the 503 body; otherwise each item is
classified independently and the 200 response carries the entry list. -/
def classify_batch (body : Option (Option (List String))) (co : ℕ → AttemptOutcome)
    (po : ℕ → Except String PyVal) (now : ℕ) (st : CState) : BatchOut :=
  match body with
  | Option.none => ⟨500, [], some noneGetMsg, st, 0, []⟩
  | some ob =>
    let texts := ob.getD []
    if texts.isEmpty then ⟨400, [], some "Please provide a list of texts", st, 0, []⟩
    else
      let run := get_client 3 10 co now st
      match run.result with
      | Except.error e => ⟨503, [], some (connErrMsgOf e), run.state, run.seqs, run.events⟩
      | Except.ok _ => ⟨200, batchProcess po texts 0, none, run.state, run.seqs, run.events⟩

/-- Modelled from the spec: §3 defines `ClassificationResult` as
`{ text, label ∈ {spam, ham}, confidence, probabilities: {spam, ham} }`;
this predicate checks that a JSON entry has that shape (used to compare
the batch entries the code builds against the spec's shape). -/
def isSpecClassificationResult (v : PyVal) : Bool :=
  match v with
  | PyVal.dict es =>
    (pyGet es "text").isSome && (pyGet es "label").isSome &&
    (pyGet es "confidence").isSome &&
    (match pyGet es "probabilities" with
     | some (PyVal.dict ps) => (pyGet ps "spam").isSome && (pyGet ps "ham").isSome
     | _ => false)
  | _ => false

/-- A batch entry marking its item as failed: a dict with an `error` key
(`app.py` 251-254). -/
def isFailedEntry (v : PyVal) : Bool :=
  match v with
  | PyVal.dict es => (pyGet es "error").isSome
  | _ => false

/-- A successful batch entry as the code builds it: a dict with `text`,
`label` and `confidence` keys and no `error` key. -/
def isOkBatchEntry (v : PyVal) : Bool :=
  match v with
  | PyVal.dict es =>
    (pyGet es "text").isSome && (pyGet es "label").isSome &&
    (pyGet es "confidence").isSome && (pyGet es "error").isNone
  | _ => false

/-- Sample oracle: every connect and probe succeeds. -/
def oracleOk : ℕ → AttemptOutcome := fun _ => AttemptOutcome.ok

/-- Sample oracle: the client opens but every probe raises a generic error. -/
def oracleProbeFail : ℕ → AttemptOutcome := fun _ => AttemptOutcome.probeErr false

/-- Sample oracle: every probe raises a `json.JSONDecodeError`. -/
def oracleProbeJson : ℕ → AttemptOutcome := fun _ => AttemptOutcome.probeErr true

/-- Sample upstream reply in the labeled-confidence-list shape,
spam 0.97 / ham 0.02. -/
def predReplySpam : PyVal := PyVal.dict [("confidences", PyVal.arr
  [PyVal.dict [("label", PyVal.str "Spam"), ("confidence", PyVal.num (97/100))],
   PyVal.dict [("label", PyVal.str "Ham"), ("confidence", PyVal.num (1/50))]])]

/-- Sample predict oracle: every attempt returns `predReplySpam`. -/
def predOk : ℕ → Except String PyVal := fun _ => Except.ok predReplySpam

/-- Sample predict oracle: every attempt raises. -/
def predFail : ℕ → Except String PyVal := fun _ => Except.error "connection reset"

/-- A parseable JSON body as `testing_api.py`'s `classify` distinguishes
them (line 75 checks the dict's truthiness): the falsy empty object `{}`,
a truthy object without a `text` field (defaulted to `""`), or a truthy
object carrying a text `t`. -/
inductive TBody where
  | emptyDict
  | noText
  | withText (t : String)

/-- Python truthiness of `data` in `testing_api.py` line 75: `None`
(missing/unparseable body, modelled as `none`) and the empty dict are
falsy. -/
def tBodyFalsy : Option TBody → Bool
  | none => true
  | some TBody.emptyDict => true
  | some _ => false

/-- `data.get('text', '')` of `testing_api.py` line 78. -/
def tBodyText : Option TBody → String
  | some (TBody.withText t) => t
  | _ => ""

/-- `testing_api.py` lines 61-64 (`n` is the `max_retries` parameter). -/
def connFailMsgT (n : ℕ) : String :=
  "Could not connect after " ++ toString n ++
    " attempts. Space might be sleeping. Try /warmup first."

/-- The `for attempt in range(max_retries)` loop of `testing_api.py`'s
`get_client` (lines 40-64): same store-before-probe ordering as `app.py`,
but a single generic `except` branch, a hard-coded backoff of
`15 * (attempt + 1)` seconds, and its own terminal message. -/
def connectLoopT (mr : ℕ) (oracle : ℕ → AttemptOutcome) :
    (fuel attempt now : ℕ) → CState → RunOut
  | 0, _, now, st => ⟨Except.ok st.client, st, now, 1, [], []⟩
  | fuel + 1, attempt, now, st =>
    match oracle attempt with
    | AttemptOutcome.ok =>
      let stMid : CState := ⟨some ⟨attempt, false⟩, st.initTime⟩
      let stFin : CState := ⟨some ⟨attempt, true⟩, some now⟩
      ⟨Except.ok (some ⟨attempt, true⟩), stFin, now, 1,
        [Event.connectCall, Event.probeCall], [stMid, stFin]⟩
    | AttemptOutcome.connectErr _ =>
      if fuel = 0 then
        ⟨Except.error (ConnError.unavailable (connFailMsgT mr)), st, now, 1,
          [Event.connectCall], []⟩
      else
        let w := 15 * (attempt + 1)
        let rest := connectLoopT mr oracle fuel (attempt + 1) (now + w) st
        ⟨rest.result, rest.state, rest.now, 1,
          Event.connectCall :: Event.sleep w :: rest.events, rest.states⟩
    | AttemptOutcome.probeErr _ =>
      let stMid : CState := ⟨some ⟨attempt, false⟩, st.initTime⟩
      if fuel = 0 then
        ⟨Except.error (ConnError.unavailable (connFailMsgT mr)), stMid, now, 1,
          [Event.connectCall, Event.probeCall], [stMid]⟩
      else
        let w := 15 * (attempt + 1)
        let rest := connectLoopT mr oracle fuel (attempt + 1) (now + w) stMid
        ⟨rest.result, rest.state, rest.now, 1,
          Event.connectCall :: Event.probeCall :: Event.sleep w :: rest.events,
          stMid :: rest.states⟩

/-- `get_client(max_retries)` of `testing_api.py` (lines 27-66): the same
cache discipline as `app.py`'s but with a 600 s freshness window and the
`testing_api.py` connect loop. -/
def get_clientT (mr : ℕ) (oracle : ℕ → AttemptOutcome) (now : ℕ) (st : CState) : RunOut :=
  match st.client with
  | some c =>
    match st.initTime with
    | some t =>
      if t ≠ 0 ∧ now - t < 600 then ⟨Except.ok (some c), st, now, 0, [], []⟩
      else
        let st1 : CState := ⟨none, st.initTime⟩
        let out := connectLoopT mr oracle mr 0 now st1
        ⟨out.result, out.state, out.now, 1, out.events, st1 :: out.states⟩
    | none =>
      let st1 : CState := ⟨none, none⟩
      let out := connectLoopT mr oracle mr 0 now st1
      ⟨out.result, out.state, out.now, 1, out.events, st1 :: out.states⟩
  | none => connectLoopT mr oracle mr 0 now st

/-- `next((item['confidence'] for item in items if item['label'] == cls), 0)`
(`testing_api.py` 112-119): like `findConf` but with an exact label
comparison — a non-string label makes `==` simply false (no exception), so
the item is skipped. -/
def findConfExact (cls : String) : List PyVal → Except Unit PyVal
  | [] => Except.ok (PyVal.num 0)
  | item :: rest =>
    match item with
    | PyVal.dict d =>
      match pyGet d "label" with
      | some (PyVal.str lbl) =>
        if lbl = cls then
          match pyGet d "confidence" with
          | some v => Except.ok v
          | none => Except.error ()
        else findConfExact cls rest
      | some _ => findConfExact cls rest
      | none => Except.error ()
    | _ => Except.error ()

/-- The result-parsing stage of `testing_api.py`'s `classify` (111-122):
`result['confidences']` is indexed directly with exact matches against
`Spam` / `Not Spam (Ham)`; any raised exception (`none` here) propagates
to the handler's catch-all. -/
def parseResultT (result : PyVal) : Option (ℚ × ℚ) :=
  match result with
  | PyVal.dict es =>
    match pyGet es "confidences" with
    | some (PyVal.arr items) =>
      match findConfExact "Spam" items, findConfExact "Not Spam (Ham)" items with
      | Except.ok (PyVal.num s), Except.ok (PyVal.num h) => some (s, h)
      | _, _ => none
    | _ => none
  | _ => none

/-- The catch-all message of `testing_api.py`'s `classify` (line 141). -/
def classifyFailMsgT : String := "Classification failed. Try /warmup first."

/-- Abstracted `str(e)` of an exception raised while parsing the
prediction result in `testing_api.py` (caught at line 137). -/
def parseErrDetailT : String := "error while parsing prediction result"

/-- The `/classify` handler of `testing_api.py` (lines 69-142).

Unlike `app.py`, a falsy `data` — `None` or the empty JSON object — is
rejected first with 400 `No JSON data provided` (line 75-76); then the
stripped text is validated as in `app.py`.  The connection uses the 600 s
window and `testing_api.py` loop; on failure the 503 body is
`{error: Space connection failed, details: str(e), suggestion: ...}`
(88-93).  The predict retry is `predictWithRetryT`; its final exception,
and any parsing exception, reach the catch-all 500 (137-142).  A
successful parse answers like `app.py`: label from the unrounded score
comparison, confidence and probabilities rounded at the boundary
(121-135). -/
def classifyT (body : Option TBody) (co : ℕ → AttemptOutcome)
    (po : ℕ → Except String PyVal) (now : ℕ) (st : CState) : ClassifyOut :=
  if tBodyFalsy body then
    ⟨⟨400, RespBody.err "No JSON data provided" none none none none none⟩,
      st, 0, [], 0, []⟩
  else
    let text := pyStrip (tBodyText body)
    if text = "" then
      ⟨⟨400, RespBody.err "No text provided" none none none none none⟩, st, 0, [], 0, []⟩
    else
      let run := get_clientT 3 co now st
      let p : PredOut :=
        match run.result with
        | Except.ok (some _) => predictWithRetryT po
        | Except.ok Option.none => predictWithRetryT (fun _ => Except.error nonePredictMsg)
        | Except.error _ => ⟨Except.error "", 0, []⟩
      let resp : Response :=
        match run.result with
        | Except.error e =>
          ⟨503, RespBody.err "Space connection failed" none
            (some "Call /warmup first to wake the Space") none
            (some (connErrMsgOf e)) none⟩
        | Except.ok _ =>
          match p.result with
          | Except.error m => ⟨500, RespBody.err m (some classifyFailMsgT) none none none none⟩
          | Except.ok r =>
            match parseResultT r with
            | some (sc, hc) =>
              ⟨200, RespBody.result text (if hc < sc then "spam" else "ham")
                (round4 (max sc hc)) (round4 sc) (round4 hc)⟩
            | none =>
              ⟨500, RespBody.err parseErrDetailT (some classifyFailMsgT) none none none none⟩
      ⟨resp, run.state, run.seqs, run.events,
        (match run.result with | Except.error _ => 0 | Except.ok _ => p.calls),
        (match run.result with | Except.error _ => [] | Except.ok _ => p.sleeps)⟩

/-! ## Helper lemmas -/

theorem connectLoop_seqs (mr rd : ℕ) (oracle : ℕ → AttemptOutcome)
    (fuel attempt now : ℕ) (st : CState) :
    (connectLoop mr rd oracle fuel attempt now st).seqs = 1 := by
  cases fuel with
  | zero => rfl
  | succ n =>
    cases h : oracle attempt with
    | ok => simp [connectLoop, h]
    | connectErr j =>
      by_cases hn : n = 0 <;> simp [connectLoop, h, hn]
    | probeErr j =>
      by_cases hn : n = 0 <;> simp [connectLoop, h, hn]

theorem connectLoop_step_ok (mr rd : ℕ) (oracle : ℕ → AttemptOutcome)
    (fuel attempt now : ℕ) (st : CState) (h : oracle attempt = AttemptOutcome.ok) :
    connectLoop mr rd oracle (fuel + 1) attempt now st =
      ⟨Except.ok (some ⟨attempt, true⟩), ⟨some ⟨attempt, true⟩, some now⟩, now, 1,
        [Event.connectCall, Event.probeCall],
        [⟨some ⟨attempt, false⟩, st.initTime⟩, ⟨some ⟨attempt, true⟩, some now⟩]⟩ := by
  simp [connectLoop, h]

theorem connectLoop_step_connectErr_last (mr rd : ℕ) (oracle : ℕ → AttemptOutcome)
    (attempt now : ℕ) (st : CState) (j : Bool)
    (h : oracle attempt = AttemptOutcome.connectErr j) :
    connectLoop mr rd oracle 1 attempt now st =
      ⟨Except.error (lastAttemptErr (AttemptOutcome.connectErr j) mr), st, now, 1,
        [Event.connectCall], []⟩ := by
  simp [connectLoop, h]

theorem connectLoop_step_connectErr (mr rd : ℕ) (oracle : ℕ → AttemptOutcome)
    (fuel attempt now : ℕ) (st : CState) (j : Bool) (hf : fuel ≠ 0)
    (h : oracle attempt = AttemptOutcome.connectErr j) :
    connectLoop mr rd oracle (fuel + 1) attempt now st =
      ⟨(connectLoop mr rd oracle fuel (attempt + 1) (now + rd * (attempt + 1)) st).result,
        (connectLoop mr rd oracle fuel (attempt + 1) (now + rd * (attempt + 1)) st).state,
        (connectLoop mr rd oracle fuel (attempt + 1) (now + rd * (attempt + 1)) st).now, 1,
        Event.connectCall :: Event.sleep (rd * (attempt + 1)) ::
          (connectLoop mr rd oracle fuel (attempt + 1) (now + rd * (attempt + 1)) st).events,
        (connectLoop mr rd oracle fuel (attempt + 1) (now + rd * (attempt + 1)) st).states⟩ := by
  simp [connectLoop, h, hf]

theorem connectLoop_step_probeErr_last (mr rd : ℕ) (oracle : ℕ → AttemptOutcome)
    (attempt now : ℕ) (st : CState) (j : Bool)
    (h : oracle attempt = AttemptOutcome.probeErr j) :
    connectLoop mr rd oracle 1 attempt now st =
      ⟨Except.error (lastAttemptErr (AttemptOutcome.probeErr j) mr),
        ⟨some ⟨attempt, false⟩, st.initTime⟩, now, 1,
        [Event.connectCall, Event.probeCall], [⟨some ⟨attempt, false⟩, st.initTime⟩]⟩ := by
  simp [connectLoop, h]

theorem connectLoop_step_probeErr (mr rd : ℕ) (oracle : ℕ → AttemptOutcome)
    (fuel attempt now : ℕ) (st : CState) (j : Bool) (hf : fuel ≠ 0)
    (h : oracle attempt = AttemptOutcome.probeErr j) :
    connectLoop mr rd oracle (fuel + 1) attempt now st =
      ⟨(connectLoop mr rd oracle fuel (attempt + 1) (now + rd * (attempt + 1))
          ⟨some ⟨attempt, false⟩, st.initTime⟩).result,
        (connectLoop mr rd oracle fuel (attempt + 1) (now + rd * (attempt + 1))
          ⟨some ⟨attempt, false⟩, st.initTime⟩).state,
        (connectLoop mr rd oracle fuel (attempt + 1) (now + rd * (attempt + 1))
          ⟨some ⟨attempt, false⟩, st.initTime⟩).now, 1,
        Event.connectCall :: Event.probeCall :: Event.sleep (rd * (attempt + 1)) ::
          (connectLoop mr rd oracle fuel (attempt + 1) (now + rd * (attempt + 1))
            ⟨some ⟨attempt, false⟩, st.initTime⟩).events,
        ⟨some ⟨attempt, false⟩, st.initTime⟩ ::
          (connectLoop mr rd oracle fuel (attempt + 1) (now + rd * (attempt + 1))
            ⟨some ⟨attempt, false⟩, st.initTime⟩).states⟩ := by
  simp [connectLoop, h, hf]

theorem connectLoop_allFail (mr rd : ℕ) (oracle : ℕ → AttemptOutcome) :
    ∀ fuel attempt now st,
      (∀ k, k ≤ fuel → oracle (attempt + k) ≠ AttemptOutcome.ok) →
      (connectLoop mr rd oracle (fuel + 1) attempt now st).events.count Event.connectCall
          = fuel + 1 ∧
      sleepsOf (connectLoop mr rd oracle (fuel + 1) attempt now st).events
          = (List.range fuel).map (fun i => rd * (attempt + i + 1)) ∧
      (connectLoop mr rd oracle (fuel + 1) attempt now st).result
          = Except.error (lastAttemptErr (oracle (attempt + fuel)) mr) ∧
      (connectLoop mr rd oracle (fuel + 1) attempt now st).state.initTime = st.initTime := by
  intro fuel
  induction fuel with
  | zero =>
    intro attempt now st hAll
    have h0 : oracle attempt ≠ AttemptOutcome.ok := by
      simpa using hAll 0 (Nat.le_refl 0)
    cases ho : oracle attempt with
    | ok => exact absurd ho h0
    | connectErr j =>
      rw [connectLoop_step_connectErr_last mr rd oracle attempt now st j ho]
      simp [sleepsOf, List.count_cons, ho]
    | probeErr j =>
      rw [connectLoop_step_probeErr_last mr rd oracle attempt now st j ho]
      simp [sleepsOf, List.count_cons, ho]
  | succ n ih =>
    intro attempt now st hAll
    have h0 : oracle attempt ≠ AttemptOutcome.ok := by
      simpa using hAll 0 (Nat.zero_le _)
    have hShift : ∀ k, k ≤ n → oracle ((attempt + 1) + k) ≠ AttemptOutcome.ok := by
      intro k hk
      have := hAll (k + 1) (Nat.succ_le_succ hk)
      simpa [Nat.add_assoc, Nat.add_comm 1 k] using this
    have hidx : attempt + 1 + n = attempt + (n + 1) := by omega
    have hmap : (List.range (n + 1)).map (fun i => rd * (attempt + i + 1))
        = rd * (attempt + 1) ::
          (List.range n).map (fun i => rd * ((attempt + 1) + i + 1)) := by
      rw [List.range_succ_eq_map, List.map_cons, List.map_map]
      refine congrArg₂ _ (congrArg (fun x => rd * x) (by omega)) (List.map_congr_left ?_)
      intro i _
      exact congrArg (fun x => rd * x) (by omega)
    cases ho : oracle attempt with
    | ok => exact absurd ho h0
    | connectErr j =>
      have hr := ih (attempt + 1) (now + rd * (attempt + 1)) st hShift
      rw [connectLoop_step_connectErr mr rd oracle (n + 1) attempt now st j
        (Nat.succ_ne_zero n) ho]
      refine ⟨?_, ?_, ?_, ?_⟩
      · simpa [List.count_cons] using hr.1
      · simpa [sleepsOf, hmap] using hr.2.1
      · simpa [hidx] using hr.2.2.1
      · simpa using hr.2.2.2
    | probeErr j =>
      have hr := ih (attempt + 1) (now + rd * (attempt + 1))
        ⟨some ⟨attempt, false⟩, st.initTime⟩ hShift
      rw [connectLoop_step_probeErr mr rd oracle (n + 1) attempt now st j
        (Nat.succ_ne_zero n) ho]
      refine ⟨?_, ?_, ?_, ?_⟩
      · simpa [List.count_cons] using hr.1
      · simpa [sleepsOf, hmap] using hr.2.1
      · simpa [hidx] using hr.2.2.1
      · simpa using hr.2.2.2

theorem connectLoop_verified (mr rd : ℕ) (oracle : ℕ → AttemptOutcome) :
    ∀ fuel attempt now st, 1 ≤ fuel →
      (∀ hd, (connectLoop mr rd oracle fuel attempt now st).result = Except.ok (some hd) →
        hd.verified = true ∧
        (connectLoop mr rd oracle fuel attempt now st).state =
          ⟨some hd, some (connectLoop mr rd oracle fuel attempt now st).now⟩) ∧
      ((connectLoop mr rd oracle fuel attempt now st).state.initTime ≠ st.initTime →
        ∃ hd, (connectLoop mr rd oracle fuel attempt now st).state.client = some hd ∧
          hd.verified = true) := by
  intro fuel
  induction fuel with
  | zero => intro attempt now st h1; exact absurd h1 (by omega)
  | succ n ih =>
    intro attempt now st _
    cases ho : oracle attempt with
    | ok =>
      rw [connectLoop_step_ok mr rd oracle n attempt now st ho]
      refine ⟨fun hd hres => ?_, fun _ => ⟨⟨attempt, true⟩, rfl, rfl⟩⟩
      have : hd = ⟨attempt, true⟩ := by
        have := (Except.ok.inj hres)
        exact (Option.some.inj this).symm
      subst this
      exact ⟨rfl, rfl⟩
    | connectErr j =>
      by_cases hn : n = 0
      · subst hn
        rw [connectLoop_step_connectErr_last mr rd oracle attempt now st j ho]
        exact ⟨fun hd hres => (nomatch hres), fun habs => absurd rfl habs⟩
      · have hr := ih (attempt + 1) (now + rd * (attempt + 1)) st (by omega)
        rw [connectLoop_step_connectErr mr rd oracle n attempt now st j hn ho]
        exact ⟨hr.1, hr.2⟩
    | probeErr j =>
      by_cases hn : n = 0
      · subst hn
        rw [connectLoop_step_probeErr_last mr rd oracle attempt now st j ho]
        exact ⟨fun hd hres => (nomatch hres), fun habs => absurd rfl habs⟩
      · have hr := ih (attempt + 1) (now + rd * (attempt + 1))
          ⟨some ⟨attempt, false⟩, st.initTime⟩ (by omega)
        rw [connectLoop_step_probeErr mr rd oracle n attempt now st j hn ho]
        exact ⟨hr.1, hr.2⟩

theorem predictLoop_allFail (po : ℕ → Except String PyVal) (ds : ℕ → String)
    (h : ∀ k, k < 3 → po k = Except.error (ds k)) :
    predictWithRetry po =
      ⟨Except.error ("Prediction failed after 3 attempts: " ++ ds 2), 3, [5, 10]⟩ ∧
    predictWithRetryT po =
      ⟨Except.error ("Prediction failed: " ++ ds 2), 3, [5, 5]⟩ := by
  have e0 := h 0 (by omega)
  have e1 := h 1 (by omega)
  have e2 := h 2 (by omega)
  constructor
  · simp [predictWithRetry, predictLoop, e0, e1, e2]
  · simp [predictWithRetryT, predictLoopT, e0, e1, e2]

theorem batchEntry_shape (t : String) (pr : Except String PyVal) :
    isOkBatchEntry (batchEntry t pr) = true ∨ isFailedEntry (batchEntry t pr) = true := by
  cases pr with
  | error d => right; simp [batchEntry, isFailedEntry, pyGet]
  | ok r =>
    cases hbs : batchScores r with
    | none => right; simp [batchEntry, hbs, isFailedEntry, pyGet]
    | some p => left; simp [batchEntry, hbs, isOkBatchEntry, pyGet]

theorem batchProcess_length (po : ℕ → Except String PyVal) :
    ∀ (ts : List String) (i : ℕ),
      (batchProcess po ts i).length = (ts.filter (fun t => pyStrip t ≠ "")).length := by
  intro ts
  induction ts with
  | nil => intro i; rfl
  | cons t rest ih =>
    intro i
    by_cases h : pyStrip t = "" <;> simp [batchProcess, h, List.filter, ih (i + 1)]

theorem batchProcess_mem (po : ℕ → Except String PyVal) :
    ∀ (ts : List String) (i : ℕ) (e : PyVal), e ∈ batchProcess po ts i →
      isOkBatchEntry e = true ∨ isFailedEntry e = true := by
  intro ts
  induction ts with
  | nil => intro i e he; simp [batchProcess] at he
  | cons t rest ih =>
    intro i e he
    by_cases h : pyStrip t = ""
    · exact ih (i + 1) e (by simpa [batchProcess, h] using he)
    · rw [batchProcess] at he
      rw [if_neg h] at he
      rcases List.mem_cons.mp he with h1 | h2
      · subst h1; exact batchEntry_shape t (po i)
      · exact ih (i + 1) e h2

theorem parseResult_unrecognized_eq :
    ∀ (r : PyVal) (raw : String),
      parseResult r = ParseOutcome.unrecognized raw → raw = pyStr r := by
  intro r raw h
  cases r with
  | str s => exact (ParseOutcome.unrecognized.inj h).symm
  | num q => exact (ParseOutcome.unrecognized.inj h).symm
  | noneV => exact (ParseOutcome.unrecognized.inj h).symm
  | dict entries =>
    simp only [parseResult] at h
    repeat' split at h
    all_goals simp_all
  | arr elems =>
    simp only [parseResult] at h
    repeat' split at h
    all_goals simp_all

theorem getClientW_seqs_le (window mr rd : ℕ) (oracle : ℕ → AttemptOutcome)
    (now : ℕ) (st : CState) : (getClientW window mr rd oracle now st).seqs ≤ 1 := by
  cases hcl : st.client with
  | none =>
    simp only [getClientW, hcl]
    exact Nat.le_of_eq (connectLoop_seqs mr rd oracle mr 0 now st)
  | some c =>
    cases hit : st.initTime with
    | none => simp [getClientW, hcl, hit]
    | some t =>
      by_cases hfresh : t ≠ 0 ∧ now - t < window <;> simp [getClientW, hcl, hit, hfresh]

/-! ## Claims -/

/-- C1: for every classification request whose upstream reply parses to a
spam score `sc` and a ham score `hc`, the `/classify` response is 200 with
label `spam` iff `sc > hc` (otherwise `ham`), confidence `max sc hc`, and
the confidence and both probabilities rounded to exactly four decimal
digits, the rounding applied only at the response boundary (label and
confidence are computed from the unrounded scores). -/
theorem C1_classify_response_shape
    (b : Option String) (co : ℕ → AttemptOutcome) (po : ℕ → Except String PyVal)
    (now : ℕ) (st : CState) (hd : Handle) (r : PyVal) (sc hc : ℚ)
    (hne : pyStrip (b.getD "") ≠ "")
    (hconn : (get_client 3 10 co now st).result = Except.ok (some hd))
    (hpred : (predictWithRetry po).result = Except.ok r)
    (hparse : parseResult r = ParseOutcome.ok sc hc) :
    (classify (some b) co po now st).resp =
      ⟨200, RespBody.result (pyStrip (b.getD ""))
        (if hc < sc then "spam" else "ham")
        (round4 (max sc hc)) (round4 sc) (round4 hc)⟩ ∧
    ((if hc < sc then "spam" else "ham") = "spam" ↔ hc < sc) ∧
    (∃ n : ℤ, round4 (max sc hc) = (n : ℚ) / 10000) ∧
    (∃ n : ℤ, round4 sc = (n : ℚ) / 10000) ∧
    (∃ n : ℤ, round4 hc = (n : ℚ) / 10000) := by
  refine ⟨?_, ?_, ⟨_, rfl⟩, ⟨_, rfl⟩, ⟨_, rfl⟩⟩
  · simp only [classify]
    rw [if_neg hne]
    simp [hconn, classifyResponse, hpred, hparse]
  · by_cases hlt : hc < sc
    · simp [hlt]
    · simp [hlt]

/-- C1 witness: the sample request with upstream scores 0.97/0.02 yields
the spam verdict with the rounded fields. -/
theorem C1_witness :
    parseResult predReplySpam = ParseOutcome.ok (97/100) (1/50) ∧
    ((classify (some (some "Win a free iPhone now!")) oracleOk predOk 1000
        ⟨none, none⟩).resp =
      ⟨200, RespBody.result (pyStrip ((some "Win a free iPhone now!").getD ""))
        (if (1/50 : ℚ) < 97/100 then "spam" else "ham")
        (round4 (max (97/100 : ℚ) (1/50))) (round4 (97/100 : ℚ))
        (round4 (1/50 : ℚ))⟩ ∧
      ((if (1/50 : ℚ) < 97/100 then "spam" else "ham") = "spam" ↔ (1/50 : ℚ) < 97/100) ∧
      (∃ n : ℤ, round4 (max (97/100 : ℚ) (1/50)) = (n : ℚ) / 10000) ∧
      (∃ n : ℤ, round4 (97/100 : ℚ) = (n : ℚ) / 10000) ∧
      (∃ n : ℤ, round4 (1/50 : ℚ) = (n : ℚ) / 10000)) :=
  ⟨rfl, C1_classify_response_shape (some "Win a free iPhone now!") oracleOk predOk 1000
    ⟨none, none⟩ ⟨0, true⟩ predReplySpam (97/100) (1/50) (by decide) rfl rfl rfl⟩

/-- C2 (amended): the freshly stored handle of a Connect-and-Verify run is
always verified — `get_client` updates the timestamp only together with
storing a verified handle, and on the no-cached-client path any returned
handle is verified and stored with its timestamp.  (The stronger original
claim — that the slot never holds an unverified handle and that no caller
ever sees one — is refuted by `C2_counterexample`: the handle is stored
before its probe, kept on failure, and can even be returned later.) -/
theorem C2_cache_verified_store (mr rd now : ℕ) (oracle : ℕ → AttemptOutcome)
    (st : CState) (hmr : 1 ≤ mr) :
    ((get_client mr rd oracle now st).state.initTime ≠ st.initTime →
      ∃ hd, (get_client mr rd oracle now st).state.client = some hd ∧
        hd.verified = true) ∧
    (st.client = none → ∀ hd,
      (get_client mr rd oracle now st).result = Except.ok (some hd) →
      hd.verified = true ∧
      (get_client mr rd oracle now st).state =
        ⟨some hd, some (get_client mr rd oracle now st).now⟩) := by
  obtain ⟨cl, it⟩ := st
  obtain ⟨m, rfl⟩ : ∃ m, mr = m + 1 := ⟨mr - 1, by omega⟩
  cases cl with
  | none =>
    have H := connectLoop_verified (m + 1) rd oracle (m + 1) 0 now ⟨none, it⟩ (by omega)
    constructor
    · intro hne
      simp only [get_client, getClientW] at hne ⊢
      exact H.2 hne
    · intro _ hd hres
      simp only [get_client, getClientW] at hres ⊢
      exact H.1 hd hres
  | some c =>
    cases it with
    | none =>
      have H := connectLoop_verified (m + 1) rd oracle (m + 1) 0 now ⟨none, none⟩ (by omega)
      constructor
      · intro hne
        simp only [get_client, getClientW] at hne ⊢
        exact H.2 hne
      · intro habs; exact absurd habs (by simp)
    | some t =>
      by_cases hfresh : t ≠ 0 ∧ now - t < 300
      · constructor
        · intro hne
          simp only [get_client, getClientW, if_pos hfresh] at hne
          exact absurd rfl hne
        · intro habs; exact absurd habs (by simp)
      · have H := connectLoop_verified (m + 1) rd oracle (m + 1) 0 now
          ⟨none, some t⟩ (by omega)
        constructor
        · intro hne
          simp only [get_client, getClientW, if_neg hfresh] at hne ⊢
          exact H.2 hne
        · intro habs; exact absurd habs (by simp)

/-- C2 witness: with every attempt succeeding, the no-cached-client path
returns the verified handle of attempt 0, stored with its timestamp. -/
theorem C2_witness :
    (⟨0, true⟩ : Handle).verified = true ∧
    (get_client 3 10 oracleOk 1000 ⟨none, none⟩).state =
      ⟨some ⟨0, true⟩, some (get_client 3 10 oracleOk 1000 ⟨none, none⟩).now⟩ :=
  (C2_cache_verified_store 3 10 1000 oracleOk ⟨none, none⟩ (by omega)).2 rfl
    ⟨0, true⟩ rfl

/-- C2 counterexample: a verified connection is made at time 1000; a
`/warmup` at 1050 whose five probes all fail leaves the unverified handle
of its last attempt in the cache slot with the *old* timestamp 1000 (the
warm-up clears only `_client`); a `/classify`'s `get_client` at time 1210
finds the slot populated and the stale timestamp still inside the 300 s
window, and returns the never-verified handle — contradicting the claim
that no unverified handle is ever visible to a caller of the cache. -/
theorem C2_counterexample :
    (warmupRun oracleProbeFail 1050 ⟨some ⟨9, true⟩, some 1000⟩).state.client =
      some ⟨4, false⟩ ∧
    (get_client 3 10 oracleProbeFail 1210
        (warmupRun oracleProbeFail 1050 ⟨some ⟨9, true⟩, some 1000⟩).state).result =
      Except.ok (some ⟨4, false⟩) ∧
    (⟨4, false⟩ : Handle).verified = false :=
  ⟨rfl, rfl, rfl⟩

/-- C3: a cached handle with a (truthy) timestamp younger than the
freshness window is returned as-is with zero network calls (empty event
list, zero loop entries, state unchanged); with no cached handle, or a
timestamp beyond the window, exactly one Connect-and-Verify sequence
runs.  Stated for any window, covering both the 300 s (`app.py`) and
600 s (`testing_api.py`) variants. -/
theorem C3_cache_freshness (window mr rd : ℕ) (oracle : ℕ → AttemptOutcome)
    (now : ℕ) (st : CState) :
    (∀ c t, st.client = some c → st.initTime = some t → t ≠ 0 → now - t < window →
      getClientW window mr rd oracle now st = ⟨Except.ok (some c), st, now, 0, [], []⟩) ∧
    ((st.client = none ∨ ∃ t, st.initTime = some t ∧ window < now - t) →
      (getClientW window mr rd oracle now st).seqs = 1) := by
  constructor
  · intro c t hc ht ht0 hlt
    simp [getClientW, hc, ht, ht0, hlt]
  · intro hcase
    cases hcl : st.client with
    | none =>
      simp only [getClientW, hcl]
      exact connectLoop_seqs mr rd oracle mr 0 now st
    | some c =>
      rcases hcase with hnone | ⟨t, ht, hstale⟩
      · rw [hcl] at hnone; cases hnone
      · have hnf : ¬(t ≠ 0 ∧ now - t < window) := by
          rintro ⟨_, hlt⟩; omega
        simp only [getClientW, hcl, ht, if_neg hnf]

/-- C3 witness: a handle cached at 1000 is returned unchanged at 1200
with no events; at 1400 (stale) the loop runs exactly once. -/
theorem C3_witness :
    getClientW 300 3 10 oracleProbeFail 1200 ⟨some ⟨1, true⟩, some 1000⟩ =
      ⟨Except.ok (some ⟨1, true⟩), ⟨some ⟨1, true⟩, some 1000⟩, 1200, 0, [], []⟩ ∧
    (getClientW 300 3 10 oracleProbeFail 1400 ⟨some ⟨1, true⟩, some 1000⟩).seqs = 1 :=
  ⟨(C3_cache_freshness 300 3 10 oracleProbeFail 1200 ⟨some ⟨1, true⟩, some 1000⟩).1
      ⟨1, true⟩ 1000 rfl rfl (by omega) (by omega),
    (C3_cache_freshness 300 3 10 oracleProbeFail 1400 ⟨some ⟨1, true⟩, some 1000⟩).2
      (Or.inr ⟨1000, rfl, by omega⟩)⟩

/-- C4 (amended): when every attempt fails, an implicit lazy `get_client()`
call makes exactly 3 connect attempts and an explicit warm-up call exactly
5, sleeping `retry_delay * attempt_number` seconds between consecutive
attempts (10 s base lazily: sleeps 10, 20; 15 s base for warm-up: sleeps
15, 30, 45, 60); the run fails with the final attempt's error, whose
message suggests the warm-up path whenever the final failure is a generic
transport/application error.  (The original claim that the message always
suggests the warm-up path is refuted by `C4_counterexample`: a final
JSON-decode failure produces the wait-30-60-seconds message with no
warm-up hint.) -/
theorem C4_retry_budget (o3 o5 : ℕ → AttemptOutcome) (now now2 : ℕ)
    (it it2 : Option ℕ) (c2 : Option Handle)
    (h3 : ∀ k, k < 3 → o3 k ≠ AttemptOutcome.ok)
    (h5 : ∀ k, k < 5 → o5 k ≠ AttemptOutcome.ok) :
    (get_client 3 10 o3 now ⟨none, it⟩).events.count Event.connectCall = 3 ∧
    sleepsOf (get_client 3 10 o3 now ⟨none, it⟩).events = [10, 20] ∧
    (get_client 3 10 o3 now ⟨none, it⟩).result =
      Except.error (lastAttemptErr (o3 2) 3) ∧
    (warmupRun o5 now2 ⟨c2, it2⟩).events.count Event.connectCall = 5 ∧
    sleepsOf (warmupRun o5 now2 ⟨c2, it2⟩).events = [15, 30, 45, 60] ∧
    (warmupRun o5 now2 ⟨c2, it2⟩).result =
      Except.error (lastAttemptErr (o5 4) 5) ∧
    (outcomeIsJson (o3 2) = false →
      mentionsWarmup (connErrMsgOf (lastAttemptErr (o3 2) 3)) = true) ∧
    (outcomeIsJson (o5 4) = false →
      mentionsWarmup (connErrMsgOf (lastAttemptErr (o5 4) 5)) = true) := by
  have H3 := connectLoop_allFail 3 10 o3 2 0 now ⟨none, it⟩
    (fun k hk => by simpa using h3 k (by omega))
  have H5 := connectLoop_allFail 5 15 o5 4 0 now2 ⟨none, it2⟩
    (fun k hk => by simpa using h5 k (by omega))
  norm_num at H3 H5
  have e3 : get_client 3 10 o3 now ⟨none, it⟩ =
      connectLoop 3 10 o3 3 0 now ⟨none, it⟩ := by
    simp [get_client, getClientW]
  have e5 : warmupRun o5 now2 ⟨c2, it2⟩ =
      connectLoop 5 15 o5 5 0 now2 ⟨none, it2⟩ := by
    simp [warmupRun, get_client, getClientW]
  rw [e3, e5]
  refine ⟨H3.1, ?_, H3.2.2.1, H5.1, ?_, H5.2.2.1, ?_, ?_⟩
  · rw [H3.2.1]; decide
  · rw [H5.2.1]; decide
  · intro hj
    simp only [lastAttemptErr, hj, Bool.false_eq_true, if_false, connErrMsgOf]
    decide
  · intro hj
    simp only [lastAttemptErr, hj, Bool.false_eq_true, if_false, connErrMsgOf]
    decide

/-- C4 witness: with every probe failing generically, the lazy call and
the warm-up call exhibit the stated budgets, schedules and messages. -/
theorem C4_witness :
    (get_client 3 10 oracleProbeFail 1000 ⟨none, none⟩).events.count
        Event.connectCall = 3 ∧
    sleepsOf (get_client 3 10 oracleProbeFail 1000 ⟨none, none⟩).events = [10, 20] ∧
    sleepsOf (warmupRun oracleProbeFail 1000 ⟨none, none⟩).events = [15, 30, 45, 60] :=
  have H := C4_retry_budget oracleProbeFail oracleProbeFail 1000 1000 none none none
    (fun k _ => by simp [oracleProbeFail]) (fun k _ => by simp [oracleProbeFail])
  ⟨H.1, H.2.1, H.2.2.2.2.1⟩

/-- C4 counterexample: when the final (indeed every) attempt fails with a
JSON-decode error, the raised message is the wait-30-60-seconds one and
does not suggest the warm-up path, refuting the claim that an exhausted
Connect-and-Verify run always fails with a message suggesting warm-up. -/
theorem C4_counterexample :
    (get_client 3 10 oracleProbeJson 1000 ⟨none, none⟩).result =
      Except.error (ConnError.invalidResponse jsonFailMsg) ∧
    mentionsWarmup jsonFailMsg = false :=
  ⟨rfl, by decide⟩

/-- C5 (amended): in both variants, a request with a truthy parseable
JSON object body whose text strips to empty (the field missing and
defaulted, or blank) is answered 400 `No text provided`, with the cache
state untouched and zero connect sequences, network events, predict
calls and sleeps; in `testing_api.py` a falsy `data` — missing body or
the empty object `{}` — is instead answered 400 with the different body
`No JSON data provided`, likewise with no upstream call.  (The original
claim is refuted by `C5_counterexample`: `app.py` answers 500 for a
missing body, and `testing_api.py` answers `No JSON data provided`, not
`No text provided`, for the empty object whose text field is missing.) -/
theorem C5_blank_text_400 (b : Option String) (tb : Option TBody)
    (co : ℕ → AttemptOutcome) (po : ℕ → Except String PyVal) (now : ℕ) (st : CState)
    (h : pyStrip (b.getD "") = "")
    (htf : tBodyFalsy tb = false) (htt : pyStrip (tBodyText tb) = "") :
    classify (some b) co po now st =
      ⟨⟨400, RespBody.err "No text provided" none none none none none⟩,
        st, 0, [], 0, []⟩ ∧
    classifyT tb co po now st =
      ⟨⟨400, RespBody.err "No text provided" none none none none none⟩,
        st, 0, [], 0, []⟩ ∧
    (∀ tb2, tBodyFalsy tb2 = true →
      classifyT tb2 co po now st =
        ⟨⟨400, RespBody.err "No JSON data provided" none none none none none⟩,
          st, 0, [], 0, []⟩) := by
  refine ⟨by simp [classify, h], by simp [classifyT, htf, htt], ?_⟩
  intro tb2 htb2
  simp [classifyT, htb2]

/-- C5 witness: a whitespace-only text is rejected with 400
`No text provided` by both handlers, and the empty JSON object gets
`testing_api.py`'s 400 `No JSON data provided` — all with no network
activity. -/
theorem C5_witness :
    pyStrip ((some "   ").getD "") = "" ∧
    classify (some (some "   ")) oracleOk predOk 1000 ⟨none, none⟩ =
      ⟨⟨400, RespBody.err "No text provided" none none none none none⟩,
        ⟨none, none⟩, 0, [], 0, []⟩ ∧
    classifyT (some (TBody.withText "   ")) oracleOk predOk 1000 ⟨none, none⟩ =
      ⟨⟨400, RespBody.err "No text provided" none none none none none⟩,
        ⟨none, none⟩, 0, [], 0, []⟩ ∧
    classifyT (some TBody.emptyDict) oracleOk predOk 1000 ⟨none, none⟩ =
      ⟨⟨400, RespBody.err "No JSON data provided" none none none none none⟩,
        ⟨none, none⟩, 0, [], 0, []⟩ :=
  have H := C5_blank_text_400 (some "   ") (some (TBody.withText "   "))
    oracleOk predOk 1000 ⟨none, none⟩ (by decide) rfl (by decide)
  ⟨by decide, H.1, H.2.1, H.2.2 (some TBody.emptyDict) rfl⟩

/-- C5 counterexample: a request with a missing JSON body is answered
500 by `app.py` (via the catch-all handler, `data.get` having raised on
`None`), not the claimed 400 `No text provided`; and for the parseable
empty object `{}` — a body whose text field is missing —
`testing_api.py` answers 400 `No JSON data provided`, not the claimed
`No text provided`. -/
theorem C5_counterexample :
    (classify Option.none oracleOk predOk 1000 ⟨none, none⟩).resp.status = 500 ∧
    (classify Option.none oracleOk predOk 1000 ⟨none, none⟩).resp ≠
      ⟨400, RespBody.err "No text provided" none none none none none⟩ ∧
    (classifyT (some TBody.emptyDict) oracleOk predOk 1000 ⟨none, none⟩).resp =
      ⟨400, RespBody.err "No JSON data provided" none none none none none⟩ ∧
    (classifyT (some TBody.emptyDict) oracleOk predOk 1000 ⟨none, none⟩).resp ≠
      ⟨400, RespBody.err "No text provided" none none none none none⟩ :=
  ⟨rfl, by decide, rfl, by decide⟩

/-- C6: an upstream reply matching none of the recognized shapes is
answered 500 with the distinct `Unexpected response format from model`
error echoing the rendered raw payload, and the reply is not retried:
exactly one predict call is made.  (Type-level mismatches inside a
recognized shape take the separate parse-failure 500, which also echoes
the raw payload.) -/
theorem C6_unrecognized_shape (b : Option String) (co : ℕ → AttemptOutcome)
    (po : ℕ → Except String PyVal) (now : ℕ) (st : CState) (hd : Handle)
    (r : PyVal) (raw : String)
    (hne : pyStrip (b.getD "") ≠ "")
    (hconn : (get_client 3 10 co now st).result = Except.ok (some hd))
    (hp0 : po 0 = Except.ok r)
    (hparse : parseResult r = ParseOutcome.unrecognized raw) :
    (classify (some b) co po now st).resp =
      ⟨500, RespBody.err "Unexpected response format from model" none none none none
        (some raw)⟩ ∧
    (classify (some b) co po now st).predictCalls = 1 ∧
    raw = pyStr r := by
  have hpred : predictWithRetry po = ⟨Except.ok r, 1, []⟩ := by
    simp [predictWithRetry, predictLoop, hp0]
  refine ⟨?_, ?_, parseResult_unrecognized_eq r raw hparse⟩
  · simp only [classify]
    rw [if_neg hne]
    simp [hconn, hpred, classifyResponse, hparse]
  · simp only [classify]
    rw [if_neg hne]
    simp [hconn, hpred]

/-- C6 witness: the bare-string reply `'hello'` is unrecognized and
answered 500 with the payload echoed after a single predict call. -/
theorem C6_witness :
    parseResult (PyVal.str "hello") = ParseOutcome.unrecognized (pyStr (PyVal.str "hello")) ∧
    ((classify (some (some "check this")) oracleOk
        (fun _ => Except.ok (PyVal.str "hello")) 1000 ⟨none, none⟩).resp =
      ⟨500, RespBody.err "Unexpected response format from model" none none none none
        (some (pyStr (PyVal.str "hello")))⟩ ∧
    (classify (some (some "check this")) oracleOk
        (fun _ => Except.ok (PyVal.str "hello")) 1000 ⟨none, none⟩).predictCalls = 1 ∧
    pyStr (PyVal.str "hello") = pyStr (PyVal.str "hello")) :=
  ⟨rfl, C6_unrecognized_shape (some "check this") oracleOk
    (fun _ => Except.ok (PyVal.str "hello")) 1000 ⟨none, none⟩ ⟨0, true⟩
    (PyVal.str "hello") (pyStr (PyVal.str "hello")) (by decide) rfl rfl rfl⟩

/-- C7 (amended): with an established connection, `app.py`'s per-call
predict loop makes at most 3 attempts — on total failure exactly 3 calls
with linear sleeps 5, 10 and a `Prediction failed after 3 attempts`
error carrying the attempt count — while `testing_api.py`'s variant
(refuting the original claim, see `C7_counterexample`) sleeps a constant
5 s and reports no attempt count; in either case the connection-level
retry is not re-entered: a `/classify` request enters the
Connect-and-Verify loop at most once. -/
theorem C7_predict_retry (po : ℕ → Except String PyVal) (ds : ℕ → String)
    (co : ℕ → AttemptOutcome) (now : ℕ) (st : CState) (hd : Handle)
    (hfail : ∀ k, k < 3 → po k = Except.error (ds k))
    (hconn : (get_client 3 10 co now st).result = Except.ok (some hd)) :
    predictWithRetry po =
      ⟨Except.error ("Prediction failed after 3 attempts: " ++ ds 2), 3, [5, 10]⟩ ∧
    predictWithRetryT po =
      ⟨Except.error ("Prediction failed: " ++ ds 2), 3, [5, 5]⟩ ∧
    (∀ b, (classify b co po now st).connSeqs ≤ 1) ∧
    (∀ b, pyStrip b ≠ "" →
      (classify (some (some b)) co po now st).resp =
        ⟨500, RespBody.err ("Prediction failed after 3 attempts: " ++ ds 2)
          (some classifyFailMsg) none none none none⟩) := by
  have H := predictLoop_allFail po ds hfail
  refine ⟨H.1, H.2, ?_, ?_⟩
  · intro b
    cases b with
    | none => simp [classify]
    | some ob =>
      by_cases hb : pyStrip (ob.getD "") = ""
      · simp [classify, hb]
      · simp only [classify]
        rw [if_neg hb]
        exact getClientW_seqs_le 300 3 10 co now st
  · intro b hb
    simp only [classify]
    rw [if_neg (by simpa using hb)]
    simp [hconn, H.1, classifyResponse]

/-- C7 witness: an all-failing predict oracle exhibits the 3-attempt
budget, the 5/10 sleeps and the attempt-count message in `app.py`. -/
theorem C7_witness :
    predictWithRetry predFail =
      ⟨Except.error "Prediction failed after 3 attempts: connection reset", 3, [5, 10]⟩ ∧
    (classify (some (some "hello")) oracleOk predFail 1000 ⟨none, none⟩).resp =
      ⟨500, RespBody.err "Prediction failed after 3 attempts: connection reset"
        (some classifyFailMsg) none none none none⟩ :=
  have H := C7_predict_retry predFail (fun _ => "connection reset") oracleOk 1000
    ⟨none, none⟩ ⟨0, true⟩ (fun k _ => rfl) rfl
  ⟨H.1, H.2.2.2 "hello" (by decide)⟩

/-- C7 counterexample: in `testing_api.py`'s predict loop the sleeps of a
fully failing run are the constant 5, 5 — not the claimed linear
`5 × attempt_number` schedule 5, 10 — and the failure message carries no
attempt count. -/
theorem C7_counterexample :
    (predictWithRetryT predFail).sleeps = [5, 5] ∧
    (predictWithRetryT predFail).sleeps ≠ [5 * 1, 5 * 2] ∧
    (predictWithRetryT predFail).result =
      Except.error "Prediction failed: connection reset" :=
  ⟨rfl, by decide, rfl⟩

/-- C8 (amended): for a valid non-empty list of texts, the batch call is
503 when the connection cannot be established and 200 otherwise; each
text blank after stripping produces no entry, and each remaining text
produces exactly one entry — a `{text, label, confidence}` success entry
or a `{text, error}` failure entry — independently of the other items'
outcomes (the entry count always equals the number of non-blank texts).
(The original claim's `ClassificationResult`-shaped entries are refuted
by `C8_counterexample`: success entries carry no `probabilities` field.) -/
theorem C8_batch_contract (ts : List String) (co : ℕ → AttemptOutcome)
    (po : ℕ → Except String PyVal) (now : ℕ) (st : CState) (hne : ts ≠ []) :
    (∀ e, (get_client 3 10 co now st).result = Except.error e →
      (classify_batch (some (some ts)) co po now st).status = 503) ∧
    (∀ c, (get_client 3 10 co now st).result = Except.ok c →
      (classify_batch (some (some ts)) co po now st).status = 200 ∧
      (classify_batch (some (some ts)) co po now st).entries.length =
        (ts.filter (fun t => pyStrip t ≠ "")).length ∧
      (∀ en ∈ (classify_batch (some (some ts)) co po now st).entries,
        isOkBatchEntry en = true ∨ isFailedEntry en = true)) := by
  have hts : ¬ ts.isEmpty := by
    cases ts with
    | nil => exact absurd rfl hne
    | cons a l => simp
  constructor
  · intro e he
    simp [classify_batch, hts, he]
  · intro c hc
    refine ⟨?_, ?_, ?_⟩
    · simp [classify_batch, hts, hc]
    · simp [classify_batch, hts, hc, batchProcess_length]
    · intro en hen
      apply batchProcess_mem po ts 0 en
      simpa [classify_batch, hts, hc] using hen

/-- C8 witness: the spec's scenario `["good msg", ""]` returns 200 with
exactly one entry (the blank text is skipped). -/
theorem C8_witness :
    (classify_batch (some (some ["good msg", ""])) oracleOk predOk 1000
        ⟨none, none⟩).status = 200 ∧
    (classify_batch (some (some ["good msg", ""])) oracleOk predOk 1000
        ⟨none, none⟩).entries.length =
      ((["good msg", ""] : List String).filter (fun t => pyStrip t ≠ "")).length :=
  have H := (C8_batch_contract ["good msg", ""] oracleOk predOk 1000 ⟨none, none⟩
    (by decide)).2 (some ⟨0, true⟩) rfl
  ⟨H.1, H.2.1⟩

/-- C8 counterexample: the success entry built for `"good msg"` has no
`probabilities` field, so it is not `ClassificationResult`-shaped in the
spec's sense (and it is not a failure entry either), refuting the claim
that each non-empty text produces a `ClassificationResult`-shaped entry
or a failure entry. -/
theorem C8_counterexample :
    (classify_batch (some (some ["good msg"])) oracleOk predOk 1000
        ⟨none, none⟩).entries = [batchEntry "good msg" (Except.ok predReplySpam)] ∧
    isSpecClassificationResult (batchEntry "good msg" (Except.ok predReplySpam)) = false ∧
    isFailedEntry (batchEntry "good msg" (Except.ok predReplySpam)) = false :=
  ⟨rfl, rfl, rfl⟩

/-- C9: a single-label-with-score reply (a dict without `confidences`,
with a `label` string and a confidence `c`) gets `c` assigned to the
class its label names — `spam` for the label `Spam`, `ham` for the
ham-class label (any other label string) — and `1 - c` to the other
class. -/
theorem C9_single_label_score (entries : List (String × PyVal)) (lbl : String) (c : ℚ)
    (hc0 : pyGet entries "confidences" = none)
    (hl : pyGet entries "label" = some (PyVal.str lbl))
    (hcf : pyGet entries "confidence" = some (PyVal.num c)) :
    parseResult (PyVal.dict entries) =
      (if lbl = "Spam" then ParseOutcome.ok c (1 - c)
       else ParseOutcome.ok (1 - c) c) := by
  by_cases hs : lbl = "Spam" <;> simp [parseResult, hc0, hl, hcf, hs]

/-- C9 witness: the reply `{label: Spam, confidence: 0.97}` normalizes to
spam 0.97, ham 0.03. -/
theorem C9_witness :
    parseResult (PyVal.dict [("label", PyVal.str "Spam"),
        ("confidence", PyVal.num (97/100))]) =
      (if ("Spam" : String) = "Spam" then ParseOutcome.ok (97/100) (1 - 97/100)
       else ParseOutcome.ok (1 - 97/100) (97/100)) :=
  C9_single_label_score [("label", PyVal.str "Spam"), ("confidence", PyVal.num (97/100))]
    "Spam" (97/100) rfl rfl rfl

/-- C10: a tuple/list reply with fewer than two elements does not make the
normalizer fail: both scores default to 0 and `/classify` answers 200
with label `ham`, confidence 0 and both probabilities 0. -/
theorem C10_short_list_ham (b : Option String) (co : ℕ → AttemptOutcome)
    (po : ℕ → Except String PyVal) (now : ℕ) (st : CState) (hd : Handle)
    (elems : List PyVal)
    (hne : pyStrip (b.getD "") ≠ "")
    (hconn : (get_client 3 10 co now st).result = Except.ok (some hd))
    (hp0 : po 0 = Except.ok (PyVal.arr elems))
    (hlen : elems.length < 2) :
    parseResult (PyVal.arr elems) = ParseOutcome.ok 0 0 ∧
    (classify (some b) co po now st).resp =
      ⟨200, RespBody.result (pyStrip (b.getD "")) "ham" 0 0 0⟩ := by
  have hparse : parseResult (PyVal.arr elems) = ParseOutcome.ok 0 0 := by
    have : ¬ 1 < elems.length := by omega
    simp [parseResult, this]
  refine ⟨hparse, ?_⟩
  have hpred : predictWithRetry po = ⟨Except.ok (PyVal.arr elems), 1, []⟩ := by
    simp [predictWithRetry, predictLoop, hp0]
  simp only [classify]
  rw [if_neg hne]
  simp [hconn, hpred, classifyResponse, hparse]
  norm_num [round4]

/-- C10 witness: the empty-list reply yields 200 / ham / all-zero
fields. -/
theorem C10_witness :
    parseResult (PyVal.arr []) = ParseOutcome.ok 0 0 ∧
    (classify (some (some "hello")) oracleOk (fun _ => Except.ok (PyVal.arr []))
        1000 ⟨none, none⟩).resp =
      ⟨200, RespBody.result (pyStrip ((some "hello").getD "")) "ham" 0 0 0⟩ :=
  C10_short_list_ham (some "hello") oracleOk (fun _ => Except.ok (PyVal.arr []))
    1000 ⟨none, none⟩ ⟨0, true⟩ [] (by decide) rfl rfl (by simp)
